import Mathlib

/-!
Verification of the dueling-game repository's limb-kinematics,
collision/combat and enemy-AI core against its natural-language design.

Each repository variant is embedded in its own namespace:

* `Grok`     - src/dueling_game_grok.py
* `Duel`     - src/dueling_game.py
* `Claude4`  - src/dueling_game_claude_4.py
* `ClaudePy` - src/dueling_game_claude.py
* `Gamma`    - src/dueling_game_gamma_2_5.py

Numeric state is modelled with exact arithmetic: rationals wherever the
source only adds, scales and compares values, reals (with `Real.sqrt`)
wherever the source takes a Euclidean length.  A comparison of the form
`v.length() < c` (with `c ≥ 0`) is modelled by the mathematically equal
squared comparison when that keeps a definition inside the rationals;
such places are noted at the definition.  Calls of `random.*` are
modelled as oracle inputs: the embedded function receives the drawn
value as an argument.
-/

/-- Squared Euclidean norm of a rational 2-vector; models pygame
`Vector2.length_squared()`. -/
def sqnormQ (v : ℚ × ℚ) : ℚ := v.1 ^ 2 + v.2 ^ 2

/-- Euclidean length of a real 2-vector; models pygame
`Vector2.length()` / `math.hypot`. -/
noncomputable def vlen (v : ℝ × ℝ) : ℝ := Real.sqrt (v.1 ^ 2 + v.2 ^ 2)

theorem vlen_nonneg (v : ℝ × ℝ) : 0 ≤ vlen v := Real.sqrt_nonneg _

theorem sqnormQ_eq_zero {v : ℚ × ℚ} : sqnormQ v = 0 ↔ v = 0 := by
  unfold sqnormQ
  constructor
  · intro h
    have h1 : v.1 ^ 2 = 0 ∧ v.2 ^ 2 = 0 :=
      (add_eq_zero_iff_of_nonneg (sq_nonneg _) (sq_nonneg _)).mp h
    have e1 : v.1 = 0 := by
      have := h1.1
      nlinarith [sq_nonneg v.1]
    have e2 : v.2 = 0 := by
      have := h1.2
      nlinarith [sq_nonneg v.2]
    exact Prod.ext e1 e2
  · intro h
    rw [h]
    norm_num

theorem vlen_eq_zero {v : ℝ × ℝ} : vlen v = 0 ↔ v = 0 := by
  unfold vlen
  rw [Real.sqrt_eq_zero (by positivity)]
  constructor
  · intro h
    have e1 : v.1 = 0 := by nlinarith [sq_nonneg v.1, sq_nonneg v.2]
    have e2 : v.2 = 0 := by nlinarith [sq_nonneg v.1, sq_nonneg v.2]
    exact Prod.ext e1 e2
  · intro h
    rw [h]
    norm_num

theorem vlen_smul (c : ℝ) (v : ℝ × ℝ) : vlen (c • v) = |c| * vlen v := by
  unfold vlen
  have h : (c • v).1 ^ 2 + (c • v).2 ^ 2 = c ^ 2 * (v.1 ^ 2 + v.2 ^ 2) := by
    simp [Prod.smul_fst, Prod.smul_snd, smul_eq_mul]
    ring
  rw [h, Real.sqrt_mul (sq_nonneg c), Real.sqrt_sq_eq_abs]

theorem vlen_pos {v : ℝ × ℝ} (h : v ≠ 0) : 0 < vlen v :=
  lt_of_le_of_ne (vlen_nonneg v) (fun e => h (vlen_eq_zero.mp e.symm))

namespace Grok

/-- Equipment kinds of dueling_game_grok.py; `bare` is EQUIP_NONE. -/
inductive Equip
  | sword
  | dagger
  | shield
  | bare
deriving DecidableEq, Repr

/-- The four-value limb extension state of the grok Arm. -/
inductive ArmSt
  | retractedSt
  | extendingSt
  | extendedSt
  | retractingSt
deriving DecidableEq, Repr

/-- EQUIPMENT_DATA damage column. -/
def equipDamage : Equip → ℚ
  | .sword => 1
  | .dagger => 1
  | .shield => 0
  | .bare => 1

/-- EQUIPMENT_DATA speed column. -/
def equipSpeed : Equip → ℚ
  | .sword => 200
  | .dagger => 300
  | .shield => 100
  | .bare => 400

/-- EQUIPMENT_DATA max_length column. -/
def equipMaxLength : Equip → ℚ
  | .sword => 40
  | .dagger => 20
  | .shield => 30
  | .bare => 10

/-- Mutable fields of the grok Arm that its update and the collision
handlers touch: relative angle in degrees, current length, and the
per-arm constants captured at construction. -/
structure Arm where
  angle : ℚ
  length : ℚ
  maxLength : ℚ
  extensionSpeed : ℚ
  st : ArmSt
deriving DecidableEq, Repr

/-- Arm.update of dueling_game_grok.py.  The angle the source derives
from atan2 of the target position, shifted by plus or minus 90 for the
side, is taken here as the input `desired` (an arbitrary rational);
everything after that point is translated verbatim: clamp the target to
[-45, 135] (the source applies this same range to both sides), move the
current angle toward it by at most 360*dt, then run the
extending/retracting length step with saturation at maxLength and at the
retracted length 10. -/
def armUpdate (a : Arm) (dt : ℚ) (desired : ℚ) : Arm :=
  let target := max (-45) (min 135 desired)
  let diff := target - a.angle
  let maxRotate := 360 * dt
  let angle1 := a.angle + max (min diff maxRotate) (-maxRotate)
  match a.st with
  | .extendingSt =>
    let len := a.length + a.extensionSpeed * dt
    if a.maxLength ≤ len then
      { a with angle := angle1, length := a.maxLength, st := .extendedSt }
    else
      { a with angle := angle1, length := len }
  | .retractingSt =>
    let len := a.length - a.extensionSpeed * dt
    if len ≤ 10 then
      { a with angle := angle1, length := 10, st := .retractedSt }
    else
      { a with angle := angle1, length := len }
  | _ => { a with angle := angle1 }

/-- The per-arm part of grok Player.update: with the mouse button held
the state is assigned `extendingSt` outright; otherwise an `extendedSt`
arm is assigned `retractingSt`. -/
def playerArmCommand (s : ArmSt) (buttonHeld : Bool) : ArmSt :=
  if buttonHeld then .extendingSt
  else if s = .extendedSt then .retractingSt
  else s

/-- The per-arm part of grok Enemy._attack; `coin` models the
random.random() < 0.5 draw. -/
def enemyAttackCommand (s : ArmSt) (coin : Bool) : ArmSt :=
  if s = .retractedSt then (if coin then .extendingSt else s)
  else if s = .extendedSt then .retractingSt
  else s

/-- equip_collision of dueling_game_grok.py, as the take_damage
invocation it produces: `none` when no damage call is made, otherwise
the (damage, knockback source position) pair passed to the victim's
take_damage.  `ownerIsTarget` models the owner == target identity test;
pymunk's overlap detection has already fired when the handler runs, so
the shapes are assumed overlapping. -/
def equipCollision (ownerIsTarget : Bool) (equip : Equip) (armState : ArmSt)
    (ownerPos : ℚ × ℚ) : Option (ℚ × (ℚ × ℚ)) :=
  if ownerIsTarget then none
  else if equip = .sword ∨ equip = .dagger then some (equipDamage equip, ownerPos)
  else if equip = .bare ∧ (armState = .extendingSt ∨ armState = .extendedSt) then
    some (1, ownerPos)
  else none

/-- shield_sword_collision of dueling_game_grok.py.  The handler names
its two shapes shield_shape and sword_shape but selects them purely by
arbiter shape order through a group test: shapes of two distinct
characters always carry different groups, so shield_shape is arbiter
shape 0 and sword_shape arbiter shape 1, whatever equipment either
actually is - no equipment kind is ever inspected, and the arm rotated
by 90 degrees (unclamped) is simply the arm carrying arbiter shape 1,
which may belong to the shield owner.  With both shapes on one
character the owner test fires and nothing changes.  Inputs: whether
the two owners coincide, the current angles of the arms carrying
arbiter shapes 1 and 0, and the two owners' health values; output:
((new shape-1 arm angle, new shape-0 arm angle),
(shape-1 owner's health, shape-0 owner's health)) - the handler never
touches health. -/
def shieldSwordCollision (sameOwner : Bool) (shape1ArmAngle shape0ArmAngle : ℚ)
    (owner1Health owner0Health : ℚ) : (ℚ × ℚ) × (ℚ × ℚ) :=
  if sameOwner then ((shape1ArmAngle, shape0ArmAngle), (owner1Health, owner0Health))
  else ((shape1ArmAngle - 90, shape0ArmAngle), (owner1Health, owner0Health))

end Grok

namespace Duel

/-- Collidable type tags used by dueling_game.py Game.resolve_all_collisions. -/
inductive CKind
  | character
  | rock
  | tree
  | weapon
deriving DecidableEq, Repr

/-- Weapon subtypes attached to weapon collidables. -/
inductive WKind
  | sword
  | dagger
  | shield
deriving DecidableEq, Repr

/-- One entry of the collidables list assembled by resolve_all_collisions:
a circle with a type tag and, for weapons, a subtype. -/
structure Coll where
  pos : ℝ × ℝ
  radius : ℝ
  kind : CKind
  sub : Option WKind

/-- Does this unordered pair of weapon subtypes form the shield-versus-blade
case of resolve_all_collisions? -/
def shieldBladePair (sa sb : Option WKind) : Prop :=
  (sa = some .shield ∧ (sb = some .sword ∨ sb = some .dagger)) ∨
  (sb = some .shield ∧ (sa = some .sword ∨ sa = some .dagger))

instance (sa sb : Option WKind) : Decidable (shieldBladePair sa sb) := by
  unfold shieldBladePair
  infer_instance

/-- The positional effect of one inner-loop step of
Game.resolve_all_collisions in dueling_game.py on the pair (a, b),
returning their new positions.  Coincident centers are skipped
(`continue`); non-overlapping pairs are untouched; the shield-blade
weapon pair only rewrites the blade's drawing angle and knocks back its
owner, leaving both positions unchanged, and every other pair involving
a weapon is skipped, so positions change only in the final push branch:
both movable (characters) split the push evenly, a character against a
static rock or tree absorbs it fully. -/
noncomputable def resolvePairPos (a b : Coll) : (ℝ × ℝ) × (ℝ × ℝ) :=
  let diff := b.pos - a.pos
  let dist := vlen diff
  if dist = 0 then (a.pos, b.pos)
  else
    let overlap := a.radius + b.radius - dist
    if 0 < overlap then
      if a.kind = .weapon ∧ b.kind = .weapon ∧ shieldBladePair a.sub b.sub then
        (a.pos, b.pos)
      else if a.kind = .weapon ∨ b.kind = .weapon then (a.pos, b.pos)
      else
        let push := ((overlap + 1 / 10) / dist) • diff
        if a.kind = .character ∧ b.kind = .character then
          (a.pos - (1 / 2 : ℝ) • push, b.pos + (1 / 2 : ℝ) • push)
        else if a.kind = .character then (a.pos - push, b.pos)
        else if b.kind = .character then (a.pos, b.pos + push)
        else (a.pos, b.pos)
    else (a.pos, b.pos)

/-- The movement part of Player.handle_input in dueling_game.py: build
the WASD vector from the pressed keys, and if its length is positive
normalize it and scale by the player speed 3; a zero vector is left
untouched.  Returns the position delta added to the player. -/
noncomputable def handleInputMove (w s a d : Bool) : ℝ × ℝ :=
  let mx : ℝ := (if d then 1 else 0) - (if a then 1 else 0)
  let my : ℝ := (if s then 1 else 0) - (if w then 1 else 0)
  if 0 < vlen (mx, my) then ((3 / vlen (mx, my)) • ((mx, my) : ℝ × ℝ))
  else (mx, my)

end Duel

namespace Claude4

/-- The fields of the dueling_game_claude_4.py Character that
take_damage reads and writes. -/
structure Char4 where
  hp : ℚ
  cooldown : ℚ
  pos : ℝ × ℝ
  vel : ℝ × ℝ

/-- Character.take_damage of dueling_game_claude_4.py: gated solely by
the damage cooldown; when it fires it decrements hp (with no check that
hp is still positive), restarts the 0.5 second immunity window, and -
when the attacker is at positive distance - adds the knockback velocity
of magnitude 5 directed away from the attacker (the source computes it
as (cos, sin) of atan2(dy, dx) scaled by 5, written here in the equal
closed form (dx, dy) / dist * 5). -/
noncomputable def takeDamage (c : Char4) (amount : ℚ) (attackerPos : ℝ × ℝ) : Char4 :=
  if c.cooldown ≤ 0 then
    let d := c.pos - attackerPos
    let dist := vlen d
    let vel1 := if 0 < dist then c.vel + (5 / dist) • d else c.vel
    { c with hp := c.hp - amount, cooldown := 1 / 2, vel := vel1 }
  else c

/-- The per-tick keyboard movement applied to the player by
Game._update_game in dueling_game_claude_4.py: MOVEMENT_SPEED = 2 is
added per pressed axis with no normalization of diagonals.  Returns the
position delta. -/
def moveDelta (w s a d : Bool) : ℚ × ℚ :=
  ((if a then (-2 : ℚ) else 0) + (if d then 2 else 0),
   (if w then (-2 : ℚ) else 0) + (if s then 2 else 0))

/-- The (cos, sin) pair of math.atan2(dy, dx): the unit vector of
(dx, dy) at positive length, and (1, 0) at the origin, since Python's
atan2(0, 0) returns 0. -/
noncomputable def atan2Dir (dy dx : ℝ) : ℝ × ℝ :=
  if vlen (dx, dy) = 0 then (1, 0)
  else (dx / vlen (dx, dy), dy / vlen (dx, dy))

/-- The body-separation step of Game._handle_collisions in
dueling_game_claude_4.py for one character pair: when the circles
overlap (distance below the radius sum), each center is pushed half the
overlap along the (cos, sin) of atan2 of the connecting vector, in
opposite directions; coincident centers get the direction (1, 0) from
atan2(0, 0) = 0 and are still separated.  Returns the two new
positions. -/
noncomputable def handleCollisionsPair (p1 p2 : ℝ × ℝ) (r1 r2 : ℝ) :
    (ℝ × ℝ) × (ℝ × ℝ) :=
  let dist := vlen (p2 - p1)
  if dist < r1 + r2 then
    let dir := atan2Dir (p2.2 - p1.2) (p2.1 - p1.1)
    let overlap := (r1 + r2) - dist
    (p1 - (overlap * (1 / 2)) • dir, p2 + (overlap * (1 / 2)) • dir)
  else (p1, p2)

end Claude4

namespace ClaudePy

/-- The knockback/velocity/position part of Entity.update in
dueling_game_claude.py.  The source guards on
knockback_force.length() > 0 and zeroes the decayed force when its
length() drops below 0.1; both comparisons are modelled by the equal
squared comparisons to stay in the rationals.  Returns
(new position, new velocity, new knockback force); the source order is:
add knockback to velocity, decay knockback by 0.9 and snap it to the
exact zero vector when small, add velocity to the position, then apply
friction 0.9 to the velocity. -/
def entityUpdate (pos vel kb : ℚ × ℚ) : (ℚ × ℚ) × (ℚ × ℚ) × (ℚ × ℚ) :=
  let step :=
    if 0 < sqnormQ kb then
      let v := vel + kb
      let k := (9 / 10 : ℚ) • kb
      (v, if sqnormQ k < 1 / 100 then (0, 0) else k)
    else (vel, kb)
  let pos1 := pos + step.1
  (pos1, (9 / 10 : ℚ) • step.1, step.2)

/-- Character.handle_shield_block of dueling_game_claude.py applied to
the blocked arm: records the rotation target 90 degrees behind the
current angle and raises the is_blocked flag.  Returns
(block_rotation_target, is_blocked). -/
def handleShieldBlock (armAngle : ℚ) : ℚ × Bool := (armAngle - 90, true)

/-- The is_blocked branch of Arm.update in dueling_game_claude.py: move
the angle toward block_rotation_target by the block rotation speed 3 per
tick, snapping to the target (and clearing the flag) once within reach;
no clamping to the arm's [min_angle, max_angle] range is applied.
Returns (new angle, is_blocked still set). -/
def armBlockedStep (angle blockTarget : ℚ) : ℚ × Bool :=
  let diff := blockTarget - angle
  if 3 < |diff| then (angle + (if 0 < diff then 3 else -3), true)
  else (blockTarget, false)

/-- Equipment type tags of dueling_game_claude.py (the .type strings);
an empty hand is the Option none. -/
inductive EqKind
  | sword
  | dagger
  | shield
deriving DecidableEq, Repr

/-- The shield-versus-blade dispatch of Character.check_weapon_collisions
in dueling_game_claude.py for one (self, other) pair: only the two
cross-side combinations are tested - self's LEFT shield against the
other's RIGHT sword/dagger starts a block of the other's right arm, and
self's RIGHT shield against the other's LEFT sword/dagger a block of
the other's left arm; a blade overlapping a same-side shield is never
tested and triggers nothing.  The two Bool inputs are the respective
shape-overlap tests; the output says which of the other character's
arms (right, left) get handle_shield_block. -/
def shieldBlockDispatch (selfLeft selfRight otherLeft otherRight : Option EqKind)
    (overlapLeftShieldRightBlade overlapRightShieldLeftBlade : Bool) : Bool × Bool :=
  ((if selfLeft = some .shield ∧
        (otherRight = some .sword ∨ otherRight = some .dagger) then
      overlapLeftShieldRightBlade
    else false),
   (if selfRight = some .shield ∧
        (otherLeft = some .sword ∨ otherLeft = some .dagger) then
      overlapRightShieldLeftBlade
    else false))

end ClaudePy

namespace Gamma

/-- normalize_vector of dueling_game_gamma_2_5.py: a zero-length vector
maps to the zero vector instead of raising, every other vector to its
unit vector. -/
noncomputable def normalizeVector (v : ℝ × ℝ) : ℝ × ℝ :=
  if vlen v = 0 then (0, 0) else (1 / vlen v) • v

/-- The movement/knockback lines of Character.update in
dueling_game_gamma_2_5.py: the position gains vel*dt and knockback*dt,
the knockback velocity is decayed by the fixed factor 0.85, and it is
snapped to the exact zero vector once its length_squared (the comparison
the source itself uses) drops below 1.  Returns (new position, new
knockback velocity). -/
def charKnockbackStep (pos vel kb : ℚ × ℚ) (dt : ℚ) : (ℚ × ℚ) × (ℚ × ℚ) :=
  let pos1 := pos + dt • vel
  let pos2 := pos1 + dt • kb
  let kb1 := (17 / 20 : ℚ) • kb
  (pos2, if sqnormQ kb1 < 1 then (0, 0) else kb1)

/-- The fields of the gamma Character that take_damage touches. -/
structure GChar where
  pos : ℝ × ℝ
  hp : ℚ
  isDead : Bool
  kb : ℝ × ℝ

/-- Character.take_damage of dueling_game_gamma_2_5.py: ignored only
when the character is already dead (there is no immunity timer);
otherwise hp is decremented, an optional knockback of magnitude 200
away from the source is accumulated (`rndDir` models the random unit
direction drawn when the source coincides with the character's center),
and the character dies (hp clamped to 0) when hp reaches 0. -/
noncomputable def gTakeDamage (c : GChar) (amount : ℚ) (sourcePos : ℝ × ℝ)
    (applyKb : Bool) (rndDir : ℝ × ℝ) : GChar :=
  if c.isDead then c
  else
    let hp1 := c.hp - amount
    let kb1 :=
      if applyKb then
        c.kb + (200 : ℝ) •
          (if c.pos = sourcePos then rndDir else normalizeVector (c.pos - sourcePos))
      else c.kb
    if hp1 ≤ 0 then { c with hp := 0, isDead := true, kb := kb1 }
    else { c with hp := hp1, kb := kb1 }

/-- Equipment kinds of the gamma variant; `bare` is EquipmentType.NONE. -/
inductive GEquip
  | sword
  | dagger
  | shield
  | bare
deriving DecidableEq, Repr

/-- The gamma AIState enumeration. -/
inductive AISt
  | idleSt
  | circlingSt
  | approachingSt
  | attackingSt
  | repositioningSt
  | avoidingSt
deriving DecidableEq, Repr

/-- The gamma ai_profile strings. -/
inductive Profile
  | aggressive
  | circler
  | standard
deriving DecidableEq, Repr

/-- The fields of the gamma Arm that the enemy AI reads and writes. -/
structure ArmCtl where
  equipment : GEquip
  isExtending : Bool
  isRetracting : Bool
  currentLength : ℝ
  maxLength : ℝ
  baseLength : ℝ
  currentAngleOffset : ℝ
  targetAngleOffset : ℝ
  minOffset : ℝ
  maxOffset : ℝ
  canAttack : Bool
  shoulderPos : ℝ × ℝ

/-- The target information the AI reads from its target entity. -/
structure Target where
  pos : ℝ × ℝ
  isDead : Bool

/-- A static hazard as the AI's avoidance pass sees it. -/
structure Hazard where
  pos : ℝ × ℝ
  size : ℝ

/-- The fields of the gamma Enemy that Enemy.update and run_ai use. -/
structure Enemy where
  pos : ℝ × ℝ
  vel : ℝ × ℝ
  angle : ℝ
  targetAngle : ℝ
  aiState : AISt
  profile : Profile
  stateTimer : ℝ
  attackCooldown : ℝ
  aggroRadius : ℝ
  attackRadius : ℝ
  preferredCirclingDistance : ℝ
  circlingDirection : ℝ
  avoidRadius : ℝ
  speed : ℝ
  moveTargetPos : Option (ℝ × ℝ)
  leftArm : ArmCtl
  rightArm : ArmCtl

/-- One tick's random draws, passed to the embedded AI as oracle
inputs in place of the source's random.* calls. -/
structure Oracle where
  timerDraw : ℝ
  prefDistDraw : ℝ
  idleNext : AISt
  circNext : AISt
  circFlipRoll : ℚ
  circAttackRoll : ℚ
  pickLeft : Bool
  cooldownDraw : ℝ
  attackNext : AISt
  reposBackRoll : ℚ
  reposRotateDraw : ℝ
  reposStepDistDraw : ℝ
  reposNext : AISt

/-- pygame Vector2.angle_to(Vector2(1, 0)) - the signed angle, in
degrees, between the vector and the x axis.  None of the proved
properties depend on its value, only on the fact that it is a total
function of the vector. -/
noncomputable def angleToXAxisDeg (v : ℝ × ℝ) : ℝ :=
  (180 / Real.pi) * Complex.arg (Complex.mk v.1 v.2)

/-- pygame Vector2.rotate: counterclockwise rotation by an angle given
in degrees. -/
noncomputable def rotateDeg (v : ℝ × ℝ) (deg : ℝ) : ℝ × ℝ :=
  let t := deg * Real.pi / 180
  (v.1 * Real.cos t - v.2 * Real.sin t, v.1 * Real.sin t + v.2 * Real.cos t)

/-- Python's (x + 360) % 360 for the angle wrap in Arm.start_extend,
followed by the shift of results above 180 down by 360. -/
noncomputable def wrapDeg (x : ℝ) : ℝ :=
  let m := (x + 360) - 360 * ⌊(x + 360) / 360⌋
  if 180 < m then m - 360 else m

/-- Arm.start_extend of the gamma variant: shields never extend; any
other arm snaps its current and target angle offsets to the clamped
offset toward the target world angle, raises is_extending, and enables
the bare-hand attack window for bare hands. -/
noncomputable def startExtend (a : ArmCtl) (charAngle targetWorldAngle : ℝ) : ArmCtl :=
  if a.equipment = .shield then a
  else
    let off := max a.minOffset (min a.maxOffset (wrapDeg (targetWorldAngle - charAngle)))
    { a with isExtending := true, isRetracting := false,
             currentAngleOffset := off, targetAngleOffset := off,
             canAttack := (if a.equipment = .bare then true else a.canAttack) }

/-- Arm.start_retract of the gamma variant. -/
def startRetract (a : ArmCtl) : ArmCtl :=
  { a with isExtending := false, isRetracting := true, canAttack := false }

/-- The automatic retraction pass run on each arm inside the ATTACKING
state: retract an arm that has finished extending, and retract an arm
left hanging beyond base length that is neither extending nor
retracting. -/
noncomputable def armAutoRetract (a : ArmCtl) : ArmCtl :=
  if a.isExtending ∧ a.maxLength ≤ a.currentLength then startRetract a
  else if ¬a.isExtending ∧ ¬a.isRetracting ∧ a.baseLength < a.currentLength then
    startRetract a
  else a

/-- Enemy.change_state: on an actual state change, install the new
state and reset its timer (random draws come from the oracle); entering
ATTACKING also zeroes the velocity, entering CIRCLING redraws the
preferred circling distance, entering REPOSITIONING clears the movement
target. -/
noncomputable def changeState (e : Enemy) (ns : AISt) (o : Oracle) : Enemy :=
  if e.aiState = ns then e
  else
    let e1 := { e with aiState := ns }
    match ns with
    | .idleSt => { e1 with stateTimer := o.timerDraw }
    | .circlingSt =>
        { e1 with stateTimer := o.timerDraw,
                  preferredCirclingDistance := o.prefDistDraw }
    | .approachingSt => { e1 with stateTimer := o.timerDraw }
    | .attackingSt => { e1 with stateTimer := 1 / 2, vel := 0 }
    | .repositioningSt => { e1 with stateTimer := o.timerDraw, moveTargetPos := none }
    | .avoidingSt => { e1 with stateTimer := 1 / 5 }

/-- The hazard-avoidance accumulation at the top of run_ai: the sum of
unit vectors away from every hazard within avoidance range, and how
many hazards contributed. -/
noncomputable def avoidData (pos : ℝ × ℝ) (avoidRadius : ℝ) (hz : List Hazard) :
    (ℝ × ℝ) × ℕ :=
  hz.foldl
    (fun acc h =>
      let distSq := (h.pos.1 - pos.1) ^ 2 + (h.pos.2 - pos.2) ^ 2
      let avoidSq := (avoidRadius + h.size / 2) ^ 2
      if distSq < avoidSq ∧ 0 < distSq then
        (acc.1 + normalizeVector (pos - h.pos), acc.2 + 1)
      else acc)
    ((0, 0), 0)

/-- The IDLE branch of run_ai. -/
noncomputable def runIdle (e : Enemy) (t : Target) (playerDist : ℝ) (o : Oracle) : Enemy :=
  let e1 := { e with vel := 0, targetAngle := angleToXAxisDeg (t.pos - e.pos) }
  let e2 :=
    if playerDist < e1.aggroRadius then
      match e1.profile with
      | .aggressive => changeState e1 .approachingSt o
      | .circler => changeState e1 .circlingSt o
      | .standard => changeState e1 o.idleNext o
    else e1
  { e2 with
    leftArm := if e2.leftArm.isExtending then startRetract e2.leftArm else e2.leftArm,
    rightArm := if e2.rightArm.isExtending then startRetract e2.rightArm else e2.rightArm }

/-- The CIRCLING branch of run_ai. -/
noncomputable def runCircling (e : Enemy) (playerDist : ℝ) (dirToPlayer : ℝ × ℝ)
    (o : Oracle) : Enemy :=
  let tang := rotateDeg dirToPlayer (90 * e.circlingDirection)
  let distError := playerDist - e.preferredCirclingDistance
  let radialVel := (distError * (1 / 2)) • dirToPlayer
  let tangentialVel := e.speed • tang
  let e1 := { e with targetAngle := angleToXAxisDeg dirToPlayer,
                     vel := e.speed • normalizeVector (tangentialVel + radialVel) }
  if e1.stateTimer ≤ 0 then
    let e2 := changeState e1 o.circNext o
    if o.circNext = .circlingSt ∧ o.circFlipRoll < 3 / 10 then
      { e2 with circlingDirection := -e2.circlingDirection }
    else e2
  else if playerDist < e1.attackRadius * (12 / 10) ∧ e1.attackCooldown ≤ 0 then
    if o.circAttackRoll < 1 / 10 then changeState e1 .attackingSt o else e1
  else e1

/-- The APPROACHING branch of run_ai. -/
noncomputable def runApproaching (e : Enemy) (playerDist : ℝ) (dirToPlayer : ℝ × ℝ)
    (o : Oracle) : Enemy :=
  let e1 := { e with targetAngle := angleToXAxisDeg dirToPlayer,
                     vel := e.speed • dirToPlayer }
  if playerDist ≤ e1.attackRadius then changeState e1 .attackingSt o
  else if e1.stateTimer ≤ 0 then changeState e1 .idleSt o
  else e1

/-- The ATTACKING branch of run_ai. -/
noncomputable def runAttacking (e : Enemy) (t : Target) (playerDist : ℝ)
    (dirToPlayer : ℝ × ℝ) (o : Oracle) : Enemy :=
  let e1 := { e with vel := 0, targetAngle := angleToXAxisDeg dirToPlayer }
  let canL := ¬(e1.leftArm.equipment = .shield ∨ e1.leftArm.equipment = .bare)
  let canR := ¬(e1.rightArm.equipment = .shield ∨ e1.rightArm.equipment = .bare)
  let e2 : Enemy :=
    if e1.attackCooldown ≤ 0 then
      let pick : Option Bool :=
        if canL ∧ canR then some o.pickLeft
        else if canL then some true
        else if canR then some false
        else none
      match pick with
      | some useLeft =>
        if useLeft then
          { e1 with
            leftArm := startExtend e1.leftArm e1.angle
              (angleToXAxisDeg (t.pos - e1.leftArm.shoulderPos)),
            attackCooldown := o.cooldownDraw, stateTimer := 1 / 2 }
        else
          { e1 with
            rightArm := startExtend e1.rightArm e1.angle
              (angleToXAxisDeg (t.pos - e1.rightArm.shoulderPos)),
            attackCooldown := o.cooldownDraw, stateTimer := 1 / 2 }
      | none => changeState e1 .repositioningSt o
    else e1
  let e3 := { e2 with leftArm := armAutoRetract e2.leftArm,
                      rightArm := armAutoRetract e2.rightArm }
  if e3.stateTimer ≤ 0 then
    if e3.attackRadius * (3 / 2) < playerDist then changeState e3 .approachingSt o
    else changeState e3 o.attackNext o
  else e3

/-- The REPOSITIONING branch of run_ai. -/
noncomputable def runRepositioning (e : Enemy) (playerDist : ℝ) (dirToPlayer : ℝ × ℝ)
    (o : Oracle) : Enemy :=
  let withTarget :=
    match e.moveTargetPos with
    | none =>
      let stepDir :=
        if o.reposBackRoll < 7 / 10 ∨ playerDist < e.attackRadius * (8 / 10) then
          -dirToPlayer
        else rotateDeg dirToPlayer o.reposRotateDraw
      { e with moveTargetPos := some (e.pos + o.reposStepDistDraw • stepDir) }
    | some _ => e
  match withTarget.moveTargetPos with
  | none => withTarget
  | some m =>
    let moveVec := m - withTarget.pos
    if vlen moveVec < 10 ∨ withTarget.stateTimer ≤ 0 then
      changeState { withTarget with vel := 0, moveTargetPos := none } o.reposNext o
    else
      { withTarget with vel := (withTarget.speed * (8 / 10)) • normalizeVector moveVec,
                        targetAngle := angleToXAxisDeg dirToPlayer }

/-- Enemy.run_ai of dueling_game_gamma_2_5.py: hazard avoidance
preempts everything; an enemy leaving AVOIDING drops to IDLE before the
state dispatch; otherwise the per-state branch runs. -/
noncomputable def runAI (e : Enemy) (t : Target) (hz : List Hazard) (o : Oracle) : Enemy :=
  let playerDist := vlen (t.pos - e.pos)
  let dirToPlayer := normalizeVector (t.pos - e.pos)
  let av := avoidData e.pos e.avoidRadius hz
  if 0 < av.2 then
    let avd := normalizeVector av.1
    let e1 := { e with vel := (e.speed * (3 / 2)) • avd,
                       targetAngle := angleToXAxisDeg avd }
    if e1.aiState = .avoidingSt then e1 else changeState e1 .avoidingSt o
  else
    let e1 := if e.aiState = .avoidingSt then changeState e .idleSt o else e
    match e1.aiState with
    | .idleSt => runIdle e1 t playerDist o
    | .circlingSt => runCircling e1 playerDist dirToPlayer o
    | .approachingSt => runApproaching e1 playerDist dirToPlayer o
    | .attackingSt => runAttacking e1 t playerDist dirToPlayer o
    | .repositioningSt => runRepositioning e1 playerDist dirToPlayer o
    | .avoidingSt => e1

/-- The target refresh at the top of Enemy.update: a missing or dead
stored target is replaced by whatever Player instance the collidables
list holds - the isinstance search does not test is_dead, so a dead but
still listed player is re-acquired. -/
def acquireTarget (cur playerInList : Option Target) : Option Target :=
  match cur with
  | none => playerInList
  | some t => if t.isDead then playerInList else some t

/-- Enemy.update of dueling_game_gamma_2_5.py up to the kinematic
super().update() call (which changes neither vel nor ai_state): decrement
the state timer and attack cooldown, refresh the target, and either stop
with IDLE when no target could be acquired or run the AI state machine
on the acquired target. -/
noncomputable def enemyUpdateAI (e : Enemy) (cur playerInList : Option Target)
    (hz : List Hazard) (dt : ℝ) (o : Oracle) : Enemy :=
  let e1 := { e with stateTimer := e.stateTimer - dt,
                     attackCooldown := e.attackCooldown - dt }
  match acquireTarget cur playerInList with
  | none =>
    let e2 := { e1 with vel := 0 }
    if e2.aiState = .idleSt then e2 else changeState e2 .idleSt o
  | some t => runAI e1 t hz o

end Gamma

section ClaimC1

/-- C1 counterexample: in the grok variant a sword attached to a fully
RETRACTED limb still invokes take_damage on an overlapping distinct
victim (with damage 1 and the owner's position as knockback source), so
weapon-to-body damage is not gated by the attacker's limb extension
state. -/
theorem c1_blade_damage_ignores_state_counterexample :
    Grok.equipCollision false Grok.Equip.sword Grok.ArmSt.retractedSt (0, 0)
        = some (1, (0, 0)) ∧
    Grok.ArmSt.retractedSt ≠ Grok.ArmSt.extendingSt ∧
    Grok.ArmSt.retractedSt ≠ Grok.ArmSt.extendedSt := by
  refine ⟨rfl, by decide, by decide⟩

/-- C1 amended: in grok's equip_collision, take_damage is invoked on an
overlapping distinct victim if and only if the equipment is a sword or
dagger (regardless of the limb's extension state) or it is the bare
hand with the limb EXTENDING or EXTENDED; when invoked it always
carries the equipment's damage and the attacker's position, and an
owner hitting itself never damages. -/
theorem c1_amended_damage_condition (eq : Grok.Equip) (st : Grok.ArmSt) (p : ℚ × ℚ) :
    Grok.equipCollision true eq st p = none ∧
    ((Grok.equipCollision false eq st p).isSome ↔
      (eq = .sword ∨ eq = .dagger ∨
        (eq = .bare ∧ (st = .extendingSt ∨ st = .extendedSt)))) ∧
    (∀ dmg src, Grok.equipCollision false eq st p = some (dmg, src) →
      dmg = Grok.equipDamage eq ∧ src = p) := by
  refine ⟨rfl, ?_, ?_⟩ <;>
    cases eq <;> cases st <;>
    simp [Grok.equipCollision, Grok.equipDamage]

/-- Witness for the amended C1 theorem at a concrete input: a dagger on
a RETRACTING limb invokes take_damage with the dagger's damage 1 and
the owner's position (2, 3). -/
theorem c1_amended_damage_condition_witness :
    (1 : ℚ) = Grok.equipDamage Grok.Equip.dagger ∧
    ((2 : ℚ), (3 : ℚ)) = ((2 : ℚ), (3 : ℚ)) :=
  (c1_amended_damage_condition Grok.Equip.dagger Grok.ArmSt.retractingSt (2, 3)).2.2
    1 (2, 3) rfl

end ClaimC1

section ClaimC4

/-- C4 counterexample: grok's player input assigns the state EXTENDING
outright whenever the button is held, so one tick can step a limb
directly from RETRACTING back to EXTENDING (and from EXTENDED back to
EXTENDING), edges the claim forbids. -/
theorem c4_player_forces_extending_counterexample :
    Grok.playerArmCommand Grok.ArmSt.retractingSt true = Grok.ArmSt.extendingSt ∧
    Grok.playerArmCommand Grok.ArmSt.extendedSt true = Grok.ArmSt.extendingSt ∧
    Grok.ArmSt.retractingSt ≠ Grok.ArmSt.extendedSt := by
  refine ⟨rfl, rfl, by decide⟩

/-- C4 amended: grok's Arm.update alone only steps EXTENDING to
EXTENDED and RETRACTING to RETRACTED (never RETRACTED to EXTENDED
directly, and never RETRACTING to EXTENDING); the enemy attack logic
adds only RETRACTED to EXTENDING and EXTENDED to RETRACTING; but the
player input handler forces any state to EXTENDING while the button is
held - including RETRACTING to EXTENDING and EXTENDED to EXTENDING -
and steps EXTENDED to RETRACTING on release. -/
theorem c4_amended_transition_edges (angle len mx sp dt d : ℚ) (s : Grok.ArmSt)
    (c : Bool) :
    (Grok.armUpdate ⟨angle, len, mx, sp, .retractedSt⟩ dt d).st = .retractedSt ∧
    (Grok.armUpdate ⟨angle, len, mx, sp, .extendedSt⟩ dt d).st = .extendedSt ∧
    ((Grok.armUpdate ⟨angle, len, mx, sp, .extendingSt⟩ dt d).st = .extendingSt ∨
     (Grok.armUpdate ⟨angle, len, mx, sp, .extendingSt⟩ dt d).st = .extendedSt) ∧
    ((Grok.armUpdate ⟨angle, len, mx, sp, .retractingSt⟩ dt d).st = .retractingSt ∨
     (Grok.armUpdate ⟨angle, len, mx, sp, .retractingSt⟩ dt d).st = .retractedSt) ∧
    Grok.playerArmCommand s true = .extendingSt ∧
    (Grok.playerArmCommand s false = s ∨
      (s = .extendedSt ∧ Grok.playerArmCommand s false = .retractingSt)) ∧
    (Grok.enemyAttackCommand s c = s ∨
      (s = .retractedSt ∧ Grok.enemyAttackCommand s c = .extendingSt) ∨
      (s = .extendedSt ∧ Grok.enemyAttackCommand s c = .retractingSt)) := by
  refine ⟨rfl, rfl, ?_, ?_, rfl, ?_, ?_⟩
  · unfold Grok.armUpdate
    dsimp only
    split <;> simp
  · unfold Grok.armUpdate
    dsimp only
    split <;> simp
  · cases s <;> simp [Grok.playerArmCommand]
  · cases s <;> cases c <;> simp [Grok.enemyAttackCommand]

end ClaimC4

/-- Moving an angle from inside [-45, 135] toward a clamped target by a
bounded nonnegative step keeps it inside [-45, 135]. -/
theorem clampedAngleStep_bounds {ang t m : ℚ} (h1 : -45 ≤ ang) (h2 : ang ≤ 135)
    (h3 : -45 ≤ t) (h4 : t ≤ 135) (hm : 0 ≤ m) :
    -45 ≤ ang + max (min (t - ang) m) (-m) ∧ ang + max (min (t - ang) m) (-m) ≤ 135 := by
  rcases le_total (t - ang) m with h | h <;> rcases le_total (-m) (t - ang) with h' | h' <;>
    rw [min_def, max_def] <;> split_ifs <;> constructor <;> linarith

section ClaimC3

/-- C3 counterexample: grok's shield_sword_collision subtracts 90
degrees from the rotated arm's angle (the arm carrying arbiter shape 1)
with no clamping, so starting from the in-range angle 10 the collision
response leaves that arm at -80, outside the [-45, 135] range that
grok's own Arm.update enforces (and outside the claimed right-limb
bound [-45, 135]); the claimed invariant therefore fails after this
collision response. -/
theorem c3_collision_response_exits_bound_counterexample :
    ((Grok.shieldSwordCollision false 10 0 9 9).1).1 = -80 ∧ ¬((-45 : ℚ) ≤ -80) := by
  constructor
  · norm_num [Grok.shieldSwordCollision]
  · norm_num

/-- C3 amended: after every grok Arm.update step that starts inside the
bounds, the angle stays in [-45, 135] (grok clamps both sides to this
same range rather than per-side bounds) and the length stays in
[10, maxLength]; the shield-block collision response, however, rotates
the arm without clamping and can leave the angle outside every bound
until later updates pull it back. -/
theorem c3_amended_update_preserves_bounds (a : Grok.Arm) (dt desired : ℚ)
    (hdt : 0 ≤ dt) (hsp : 0 ≤ a.extensionSpeed)
    (hlo : -45 ≤ a.angle) (hhi : a.angle ≤ 135)
    (hl1 : 10 ≤ a.length) (hl2 : a.length ≤ a.maxLength) (hm : 10 ≤ a.maxLength) :
    (-45 ≤ (Grok.armUpdate a dt desired).angle ∧
      (Grok.armUpdate a dt desired).angle ≤ 135) ∧
    (10 ≤ (Grok.armUpdate a dt desired).length ∧
      (Grok.armUpdate a dt desired).length ≤ (Grok.armUpdate a dt desired).maxLength) := by
  obtain ⟨ang, len, mx, sp, st⟩ := a
  simp only at hsp hlo hhi hl1 hl2 hm
  have ht1 : -45 ≤ max (-45 : ℚ) (min 135 desired) := le_max_left _ _
  have ht2 : max (-45 : ℚ) (min 135 desired) ≤ 135 :=
    max_le (by norm_num) (min_le_left _ _)
  have hrot : (0 : ℚ) ≤ 360 * dt := by linarith
  have hang := clampedAngleStep_bounds hlo hhi ht1 ht2 hrot
  have hgrow : (0 : ℚ) ≤ sp * dt := mul_nonneg hsp hdt
  cases st <;> unfold Grok.armUpdate <;> dsimp only
  case retractedSt => exact ⟨hang, hl1, hl2⟩
  case extendingSt =>
    split_ifs with h
    · exact ⟨hang, by simpa using hm, by simp⟩
    · refine ⟨hang, ?_, ?_⟩ <;> simp only <;> linarith
  case extendedSt => exact ⟨hang, hl1, hl2⟩
  case retractingSt =>
    split_ifs with h
    · exact ⟨hang, by norm_num, by simpa using hm⟩
    · refine ⟨hang, ?_, ?_⟩ <;> simp only <;> linarith

/-- Witness for the amended C3 theorem: a sword arm at angle 0 and
length 10, EXTENDING with dt = 1/100 toward a far target, stays inside
the angle range [-45, 135] and the length range [10, 40]. -/
theorem c3_amended_update_preserves_bounds_witness :
    (0 : ℚ) ≤ 1 / 100 ∧
    ((-45 ≤ (Grok.armUpdate ⟨0, 10, 40, 200, .extendingSt⟩ (1 / 100) 999).angle ∧
      (Grok.armUpdate ⟨0, 10, 40, 200, .extendingSt⟩ (1 / 100) 999).angle ≤ 135) ∧
     (10 ≤ (Grok.armUpdate ⟨0, 10, 40, 200, .extendingSt⟩ (1 / 100) 999).length ∧
      (Grok.armUpdate ⟨0, 10, 40, 200, .extendingSt⟩ (1 / 100) 999).length ≤
        (Grok.armUpdate ⟨0, 10, 40, 200, .extendingSt⟩ (1 / 100) 999).maxLength)) :=
  ⟨by norm_num,
   c3_amended_update_preserves_bounds ⟨0, 10, 40, 200, .extendingSt⟩ (1 / 100) 999
     (by norm_num) (by norm_num) (by norm_num) (by norm_num) (by norm_num) (by norm_num)
     (by norm_num)⟩

end ClaimC3

section ClaimC5

/-- C5 counterexample: two refutations at concrete inputs.  In grok,
the shield-block response rotates the arm carrying arbiter shape 1 from
angle 0 to exactly -90 (unclamped, outside the bound [-45, 135]) while
leaving both owners' health 9 untouched - and since the shapes are
picked by arbiter order rather than equipment kind, that rotated arm
may be the shield owner's, not the blade owner's.  In claude, a sword
in the other character's LEFT hand overlapping this character's LEFT
shield matches neither cross-side test of check_weapon_collisions, so
no arm is rotated at all despite the blade-shield overlap. -/
theorem c5_block_rotation_unclamped_counterexample :
    Grok.shieldSwordCollision false 0 25 9 9 = ((-90, 25), (9, 9)) ∧
    ¬((-45 : ℚ) ≤ -90) ∧
    ClaudePy.shieldBlockDispatch (some .shield) none (some .sword) none true true
      = (false, false) := by
  refine ⟨?_, by norm_num, ?_⟩
  · norm_num [Grok.shieldSwordCollision]
  · simp [ClaudePy.shieldBlockDispatch]

/-- C5 amended: a blade overlapping a distinct character's shield never
reduces the shield owner's hp by that contact, but the 90-degree
backward rotation is neither reliably aimed at the blade owner's limb
nor clamped.  grok rotates the arm carrying the arbiter's second shape
by exactly 90 degrees, unclamped, leaving the other arm and both health
values untouched - the shapes are selected by arbiter order, never by
equipment kind, so the rotated arm may be the shield owner's.  claude
starts a block (a gradual unclamped rotation converging to exactly
angle - 90) of the blade arm if and only if one of its two cross-side
shield/blade tests matches and the shapes overlap; a blade overlapping
a same-side shield triggers no rotation. -/
theorem c5_amended_shield_block (angle other h1 h0 bt a : ℚ)
    (sl sr ol od : Option ClaudePy.EqKind) (u v : Bool) :
    Grok.shieldSwordCollision false angle other h1 h0 = ((angle - 90, other), (h1, h0)) ∧
    Grok.shieldSwordCollision true angle other h1 h0 = ((angle, other), (h1, h0)) ∧
    ClaudePy.handleShieldBlock angle = (angle - 90, true) ∧
    (|bt - a| ≤ 3 → ClaudePy.armBlockedStep a bt = (bt, false)) ∧
    ((ClaudePy.shieldBlockDispatch sl sr ol od u v).1 = true ↔
      (sl = some .shield ∧ (od = some .sword ∨ od = some .dagger) ∧ u = true)) ∧
    ((ClaudePy.shieldBlockDispatch sl sr ol od u v).2 = true ↔
      (sr = some .shield ∧ (ol = some .sword ∨ ol = some .dagger) ∧ v = true)) := by
  refine ⟨rfl, rfl, rfl, fun hle => ?_, ?_, ?_⟩
  · unfold ClaudePy.armBlockedStep
    rw [if_neg (by simpa using not_lt.mpr hle)]
  · unfold ClaudePy.shieldBlockDispatch
    dsimp only
    split_ifs with hc
    · simp [hc]
    · exact iff_of_false (by simp) (fun h => hc ⟨h.1, h.2.1⟩)
  · unfold ClaudePy.shieldBlockDispatch
    dsimp only
    split_ifs with hc
    · simp [hc]
    · exact iff_of_false (by simp) (fun h => hc ⟨h.1, h.2.1⟩)

/-- Witness for the amended C5 theorem: the blocked arm two degrees
from its target -90 snaps to exactly -90 and clears the flag, and the
cross-side pair left-shield versus right-sword with overlapping shapes
does start a block of the other's right arm. -/
theorem c5_amended_shield_block_witness :
    (|(-90 : ℚ) - (-88)| ≤ 3 ∧ ClaudePy.armBlockedStep (-88) (-90) = (-90, false)) ∧
    ((ClaudePy.shieldBlockDispatch (some .shield) none none (some .sword) true true).1
        = true ↔
      ((some ClaudePy.EqKind.shield : Option ClaudePy.EqKind) = some .shield ∧
        ((some ClaudePy.EqKind.sword : Option ClaudePy.EqKind) = some .sword ∨
          (some ClaudePy.EqKind.sword : Option ClaudePy.EqKind) = some .dagger) ∧
        true = true)) :=
  ⟨⟨by norm_num,
    (c5_amended_shield_block 0 0 0 0 (-90) (-88) (some .shield) none none (some .sword)
        true true).2.2.2.1 (by norm_num)⟩,
   (c5_amended_shield_block 0 0 0 0 (-90) (-88) (some .shield) none none (some .sword)
        true true).2.2.2.2.1⟩

end ClaimC5

theorem sqnormQ_nonneg (v : ℚ × ℚ) : 0 ≤ sqnormQ v := by
  unfold sqnormQ
  positivity

theorem sqnormQ_pos {v : ℚ × ℚ} (h : v ≠ 0) : 0 < sqnormQ v :=
  lt_of_le_of_ne (sqnormQ_nonneg v) (fun e => h (sqnormQ_eq_zero.mp e.symm))

section ClaimC2

/-- C2 counterexample: claude_4's take_damage does not test the current
hp, so a call on a character whose hp is already 0 with an expired
immunity cooldown still decrements hp to -1, contradicting the claim
that such a call leaves hp unchanged. -/
theorem c2_damage_ignores_nonpositive_hp_counterexample :
    (Claude4.takeDamage ⟨0, 0, (0, 0), (0, 0)⟩ 1 ((1 : ℝ), (0 : ℝ))).hp = -1 := by
  unfold Claude4.takeDamage
  rw [if_pos (by norm_num)]
  norm_num

/-- C2 amended: claude_4's take_damage is gated solely by the immunity
cooldown: while the cooldown is positive a call changes nothing, and
with the cooldown expired it decrements hp exactly once - regardless of
whether hp is already nonpositive - and restarts the 0.5 second
immunity window, so an immediately repeated call (a prolonged overlap
on the next tick) changes nothing further; gamma's take_damage has no
immunity timer at all: it is ignored only for an already dead character
and otherwise decrements hp on every call (dying when hp reaches 0). -/
theorem c2_amended_immunity_gating (c : Claude4.Char4) (amount : ℚ) (apos : ℝ × ℝ)
    (g : Gamma.GChar) (amt : ℚ) (sp : ℝ × ℝ) (ak : Bool) (rd : ℝ × ℝ) :
    (0 < c.cooldown → Claude4.takeDamage c amount apos = c) ∧
    (c.cooldown ≤ 0 →
      (Claude4.takeDamage c amount apos).hp = c.hp - amount ∧
      (Claude4.takeDamage c amount apos).cooldown = 1 / 2 ∧
      Claude4.takeDamage (Claude4.takeDamage c amount apos) amount apos
        = Claude4.takeDamage c amount apos) ∧
    (g.isDead = true → Gamma.gTakeDamage g amt sp ak rd = g) ∧
    (g.isDead = false →
      (Gamma.gTakeDamage g amt sp ak rd).hp
        = (if g.hp - amt ≤ 0 then 0 else g.hp - amt)) := by
  have hgate : ∀ (c' : Claude4.Char4) (am : ℚ) (ap : ℝ × ℝ),
      0 < c'.cooldown → Claude4.takeDamage c' am ap = c' := by
    intro c' am ap hpos
    unfold Claude4.takeDamage
    rw [if_neg (by linarith)]
  refine ⟨hgate c amount apos, fun hz => ?_, fun hd => ?_, fun hd => ?_⟩
  · have hfire : Claude4.takeDamage c amount apos =
        { c with hp := c.hp - amount, cooldown := 1 / 2,
                 vel := if 0 < vlen (c.pos - apos) then
                          c.vel + (5 / vlen (c.pos - apos)) • (c.pos - apos)
                        else c.vel } := by
      unfold Claude4.takeDamage
      rw [if_pos hz]
    refine ⟨by rw [hfire], by rw [hfire], ?_⟩
    rw [hfire]
    exact hgate _ _ _ (by norm_num)
  · unfold Gamma.gTakeDamage
    rw [if_pos hd]
  · unfold Gamma.gTakeDamage
    rw [if_neg (by simp [hd])]
    dsimp only
    split_ifs with h <;> simp

/-- Witness for the amended C2 theorem at concrete inputs: a claude_4
character with hp 9 and expired cooldown loses exactly 1 hp and gets
the 0.5 second window, and a living gamma character with hp 9 drops to
8. -/
theorem c2_amended_immunity_gating_witness :
    ((0 : ℚ) ≤ 0 ∧
      (Claude4.takeDamage ⟨9, 0, (0, 0), (0, 0)⟩ 1 ((1 : ℝ), (0 : ℝ))).hp = 9 - 1 ∧
      (Claude4.takeDamage ⟨9, 0, (0, 0), (0, 0)⟩ 1 ((1 : ℝ), (0 : ℝ))).cooldown = 1 / 2) ∧
    (Gamma.gTakeDamage ⟨(0, 0), 9, false, (0, 0)⟩ 1 ((1 : ℝ), (0 : ℝ)) true (1, 0)).hp
      = (if (9 : ℚ) - 1 ≤ 0 then 0 else 9 - 1) := by
  have h := c2_amended_immunity_gating ⟨9, 0, (0, 0), (0, 0)⟩ 1 ((1 : ℝ), (0 : ℝ))
    ⟨(0, 0), 9, false, (0, 0)⟩ 1 ((1 : ℝ), (0 : ℝ)) true (1, 0)
  have h2 := h.2.1 (by norm_num)
  exact ⟨⟨by norm_num, h2.1, h2.2.1⟩, h.2.2.2 rfl⟩

end ClaimC2

section ClaimC6

/-- C6 confirmed: the per-tick updates of both cited variants apply the
knockback velocity to the position (gamma adds knockback * dt to the
position directly; claude adds the knockback force into the velocity
that is then added to the position in the same tick, so the tick's
position delta is vel + knockback), decay the knockback by the fixed
factor 0.85 respectively 0.9 - both inside the claimed 0.85 to 0.9
range - and, once the decayed magnitude is below the negligible
threshold (length squared below 1 for gamma, length below 0.1 for
claude), snap it to exactly the zero vector, never leaving a small
nonzero residual. -/
theorem c6_knockback_decay_and_exact_zeroing (pos vel kb p v k : ℚ × ℚ) (dt : ℚ)
    (hk : k ≠ 0) :
    (Gamma.charKnockbackStep pos vel kb dt).1 = pos + dt • vel + dt • kb ∧
    ((Gamma.charKnockbackStep pos vel kb dt).2 = (17 / 20 : ℚ) • kb ∨
      (Gamma.charKnockbackStep pos vel kb dt).2 = 0) ∧
    (sqnormQ ((17 / 20 : ℚ) • kb) < 1 ↔ (Gamma.charKnockbackStep pos vel kb dt).2 = 0) ∧
    (ClaudePy.entityUpdate p v k).1 = p + v + k ∧
    ((ClaudePy.entityUpdate p v k).2.2 = (9 / 10 : ℚ) • k ∨
      (ClaudePy.entityUpdate p v k).2.2 = 0) ∧
    (sqnormQ ((9 / 10 : ℚ) • k) < 1 / 100 ↔ (ClaudePy.entityUpdate p v k).2.2 = 0) := by
  have hkpos : 0 < sqnormQ k := sqnormQ_pos hk
  have hne : ((9 : ℚ) / 10) • k ≠ 0 := by
    intro h
    exact hk (by simpa [smul_eq_zero] using h)
  constructor
  · unfold Gamma.charKnockbackStep
    simp
  refine ⟨?_, ?_, ?_, ?_, ?_⟩
  · unfold Gamma.charKnockbackStep
    dsimp only
    split_ifs <;> simp
  · unfold Gamma.charKnockbackStep
    dsimp only
    split_ifs with h
    · exact iff_of_true h (by simp)
    · constructor
      · intro hlt
        exact absurd hlt h
      · intro he
        rw [he] at h
        exact absurd (by norm_num [sqnormQ] : sqnormQ (0 : ℚ × ℚ) < 1) h
  · unfold ClaudePy.entityUpdate
    dsimp only
    rw [if_pos hkpos]
    dsimp only
    abel
  · unfold ClaudePy.entityUpdate
    dsimp only
    rw [if_pos hkpos]
    dsimp only
    split_ifs <;> simp
  · unfold ClaudePy.entityUpdate
    dsimp only
    rw [if_pos hkpos]
    dsimp only
    split_ifs with h
    · exact iff_of_true h (by simp)
    · constructor
      · intro hlt
        exact absurd hlt h
      · intro he
        exact absurd he hne

/-- Witness for the C6 theorem at concrete values: knockback (20, 0)
decays to (17, 0) (not yet snapped), and the claude knockback (1, 0)
decays to (9/10, 0) with the positions gaining the full knockback. -/
theorem c6_knockback_decay_and_exact_zeroing_witness :
    ((1 : ℚ), (0 : ℚ)) ≠ 0 ∧
    (Gamma.charKnockbackStep (0, 0) (0, 0) (20, 0) 1).1 = (0, 0) + (1 : ℚ) • ((0 : ℚ), (0 : ℚ)) + (1 : ℚ) • ((20 : ℚ), (0 : ℚ)) ∧
    (ClaudePy.entityUpdate (0, 0) (0, 0) (1, 0)).1 = (0, 0) + (0, 0) + (1, 0) := by
  have h := c6_knockback_decay_and_exact_zeroing (0, 0) (0, 0) (20, 0) (0, 0) (0, 0) (1, 0) 1
    (by intro he; simpa using congrArg Prod.fst he)
  exact ⟨by intro he; simpa using congrArg Prod.fst he, h.1, h.2.2.2.1⟩

end ClaimC6

section ClaimC9

/-- C9 counterexample: claude_4's per-tick keyboard movement adds
MOVEMENT_SPEED = 2 independently per axis, so holding W and A yields
the delta (-2, -2) whose squared magnitude 8 strictly exceeds the
squared movement speed 4 - the diagonal is not renormalized to the
character's movement speed. -/
theorem c9_diagonal_speed_counterexample :
    Claude4.moveDelta true false true false = (-2, -2) ∧
    sqnormQ (Claude4.moveDelta true false true false) = 8 ∧ (2 : ℚ) ^ 2 < 8 := by
  refine ⟨?_, ?_, by norm_num⟩ <;> norm_num [Claude4.moveDelta, sqnormQ, Prod.ext_iff]

/-- C9 amended: in dueling_game.py, a tick with no movement keys yields
exactly the zero delta without any error, and any key combination
yields either the zero vector (also for cancelling opposite keys) or a
delta of magnitude exactly the player speed 3; gamma's normalize_vector
likewise maps the degenerate zero vector to zero and everything else to
a unit vector.  claude_4, the remaining cited source, does not
normalize (see the counterexample). -/
theorem c9_amended_movement_normalization (w s a d : Bool) (v : ℝ × ℝ) :
    Duel.handleInputMove false false false false = (0, 0) ∧
    (Duel.handleInputMove w s a d = (0, 0) ∨ vlen (Duel.handleInputMove w s a d) = 3) ∧
    Gamma.normalizeVector (0, 0) = (0, 0) ∧
    (Gamma.normalizeVector v = (0, 0) ∨ vlen (Gamma.normalizeVector v) = 1) := by
  have hzero : vlen ((0 : ℝ), (0 : ℝ)) = 0 := by
    unfold vlen
    norm_num
  have hzero' : vlen (0 : ℝ × ℝ) = 0 := hzero
  have hunit : ∀ (u : ℝ × ℝ) (c : ℝ), 0 < vlen u → c = vlen u →
      vlen ((3 / c) • u) = 3 := by
    intro u c hu hc
    rw [vlen_smul, hc, abs_of_pos (by positivity), div_mul_cancel₀ _ (ne_of_gt hu)]
  refine ⟨?_, ?_, ?_, ?_⟩
  · unfold Duel.handleInputMove
    rw [if_neg (by simp [hzero, hzero'])]
    norm_num
  · unfold Duel.handleInputMove
    dsimp only
    generalize ((if d then (1 : ℝ) else 0) - (if a then (1 : ℝ) else 0),
        (if s then (1 : ℝ) else 0) - (if w then (1 : ℝ) else 0)) = m
    by_cases h : 0 < vlen m
    · rw [if_pos h]
      exact Or.inr (hunit _ _ h rfl)
    · rw [if_neg h]
      left
      have h0 : vlen m = 0 := le_antisymm (not_lt.mp h) (vlen_nonneg _)
      exact (vlen_eq_zero.mp h0).trans rfl
  · unfold Gamma.normalizeVector
    rw [if_pos hzero]
  · unfold Gamma.normalizeVector
    split_ifs with h
    · exact Or.inl rfl
    · right
      have hpos : 0 < vlen v := lt_of_le_of_ne (vlen_nonneg v) (Ne.symm h)
      rw [vlen_smul, abs_of_pos (by positivity), one_div,
        inv_mul_cancel₀ (ne_of_gt hpos)]

end ClaimC9

theorem atan2Dir_of_eq_zero {dy dx : ℝ} (h : vlen (dx, dy) = 0) :
    Claude4.atan2Dir dy dx = (1, 0) := by
  unfold Claude4.atan2Dir
  rw [if_pos h]

theorem atan2Dir_of_ne_zero {dy dx : ℝ} (h : vlen (dx, dy) ≠ 0) :
    Claude4.atan2Dir dy dx = (vlen (dx, dy))⁻¹ • ((dx, dy) : ℝ × ℝ) := by
  unfold Claude4.atan2Dir
  rw [if_neg h]
  refine Prod.ext ?_ ?_ <;> simp [div_eq_inv_mul]

section ClaimC7

/-- C7 counterexample: the resolver of dueling_game.py skips any pair
at exactly zero center distance, so two fully coincident character
circles are left unchanged by the pass and still overlap afterwards,
contradicting the claim for every overlapping pair. -/
theorem c7_coincident_pair_not_separated_counterexample :
    Duel.resolvePairPos ⟨(0, 0), 20, .character, none⟩ ⟨(0, 0), 20, .character, none⟩
      = ((0, 0), (0, 0)) ∧
    vlen (((0, 0) : ℝ × ℝ) - (0, 0)) < 20 + 20 := by
  have hz : vlen (((0, 0) : ℝ × ℝ) - ((0, 0) : ℝ × ℝ)) = 0 := by
    rw [sub_self]
    exact vlen_eq_zero.mpr rfl
  constructor
  · unfold Duel.resolvePairPos
    rw [if_pos hz]
  · rw [hz]
    norm_num

/-- C7 amended: for every pair of distinct overlapping characters, one
collision-resolution pass pushes the two centers apart along the
connecting normal so that the circles no longer overlap afterwards,
with the two positional corrections equal in magnitude and opposite in
direction - claude_4's pass satisfies this in full, separating every
overlapping pair to exactly the radius sum (coincident centers
included, pushed along (1, 0) since atan2(0, 0) = 0); the
dueling_game.py resolver satisfies it (separating to radius-sum + 0.1)
only for pairs at strictly positive center distance, skipping exactly
the coincident pairs of the counterexample. -/
theorem c7_amended_pair_separation (a b : Duel.Coll)
    (ha : a.kind = Duel.CKind.character) (hb : b.kind = Duel.CKind.character)
    (hd : 0 < vlen (b.pos - a.pos))
    (hov : vlen (b.pos - a.pos) < a.radius + b.radius)
    (p1 p2 : ℝ × ℝ) (r1 r2 : ℝ) (hov4 : vlen (p2 - p1) < r1 + r2) :
    vlen ((Duel.resolvePairPos a b).2 - (Duel.resolvePairPos a b).1)
      = a.radius + b.radius + 1 / 10 ∧
    a.radius + b.radius < vlen ((Duel.resolvePairPos a b).2 - (Duel.resolvePairPos a b).1) ∧
    (Duel.resolvePairPos a b).1 - a.pos = -((Duel.resolvePairPos a b).2 - b.pos) ∧
    vlen ((Claude4.handleCollisionsPair p1 p2 r1 r2).2 -
      (Claude4.handleCollisionsPair p1 p2 r1 r2).1) = r1 + r2 ∧
    ¬(vlen ((Claude4.handleCollisionsPair p1 p2 r1 r2).2 -
      (Claude4.handleCollisionsPair p1 p2 r1 r2).1) < r1 + r2) ∧
    (Claude4.handleCollisionsPair p1 p2 r1 r2).1 - p1
      = -((Claude4.handleCollisionsPair p1 p2 r1 r2).2 - p2) := by
  have h0 : vlen (b.pos - a.pos) ≠ 0 := ne_of_gt hd
  have hres : Duel.resolvePairPos a b =
      (a.pos - (1 / 2 : ℝ) • (((a.radius + b.radius - vlen (b.pos - a.pos) + 1 / 10) /
          vlen (b.pos - a.pos)) • (b.pos - a.pos)),
       b.pos + (1 / 2 : ℝ) • (((a.radius + b.radius - vlen (b.pos - a.pos) + 1 / 10) /
          vlen (b.pos - a.pos)) • (b.pos - a.pos))) := by
    unfold Duel.resolvePairPos
    rw [if_neg h0]
    dsimp only
    rw [if_pos (show (0 : ℝ) < a.radius + b.radius - vlen (b.pos - a.pos) by linarith)]
    rw [if_neg (by simp [ha]), if_neg (by simp [ha, hb]), if_pos ⟨ha, hb⟩]
  have hsum : 0 < a.radius + b.radius + 1 / 10 := by
    have := vlen_nonneg (b.pos - a.pos)
    linarith
  have h1c : 1 + (a.radius + b.radius - vlen (b.pos - a.pos) + 1 / 10) /
      vlen (b.pos - a.pos) = (a.radius + b.radius + 1 / 10) / vlen (b.pos - a.pos) := by
    field_simp
    ring
  have hlen : vlen ((Duel.resolvePairPos a b).2 - (Duel.resolvePairPos a b).1)
      = a.radius + b.radius + 1 / 10 := by
    rw [hres]
    dsimp only
    have e : (b.pos + (1 / 2 : ℝ) • (((a.radius + b.radius - vlen (b.pos - a.pos) + 1 / 10) /
          vlen (b.pos - a.pos)) • (b.pos - a.pos))) -
        (a.pos - (1 / 2 : ℝ) • (((a.radius + b.radius - vlen (b.pos - a.pos) + 1 / 10) /
          vlen (b.pos - a.pos)) • (b.pos - a.pos)))
        = (1 + (a.radius + b.radius - vlen (b.pos - a.pos) + 1 / 10) /
            vlen (b.pos - a.pos)) • (b.pos - a.pos) := by
      module
    rw [e, vlen_smul, h1c, abs_of_pos (div_pos hsum hd), div_mul_cancel₀ _ h0]
  have hsum4 : 0 < r1 + r2 := lt_of_le_of_lt (vlen_nonneg _) hov4
  have hC : Claude4.handleCollisionsPair p1 p2 r1 r2 =
      (p1 - ((r1 + r2 - vlen (p2 - p1)) * (1 / 2)) •
          Claude4.atan2Dir (p2.2 - p1.2) (p2.1 - p1.1),
       p2 + ((r1 + r2 - vlen (p2 - p1)) * (1 / 2)) •
          Claude4.atan2Dir (p2.2 - p1.2) (p2.1 - p1.1)) := by
    unfold Claude4.handleCollisionsPair
    rw [if_pos hov4]
  have hmk : ((p2.1 - p1.1, p2.2 - p1.2) : ℝ × ℝ) = p2 - p1 := rfl
  have hClen : vlen ((Claude4.handleCollisionsPair p1 p2 r1 r2).2 -
      (Claude4.handleCollisionsPair p1 p2 r1 r2).1) = r1 + r2 := by
    rw [hC]
    dsimp only
    have e : ∀ (c : ℝ) (u : ℝ × ℝ), (p2 + c • u) - (p1 - c • u)
        = (p2 - p1) + (2 * c) • u := by
      intro c u
      module
    rw [e]
    by_cases hz : vlen (p2 - p1) = 0
    · rw [atan2Dir_of_eq_zero (by rw [hmk]; exact hz), hz, vlen_eq_zero.mp hz, zero_add,
        vlen_smul]
      have h10 : vlen ((1 : ℝ), (0 : ℝ)) = 1 := by
        unfold vlen
        norm_num
      rw [h10, abs_of_pos (by linarith)]
      ring
    · rw [atan2Dir_of_ne_zero (by rw [hmk]; exact hz), hmk, smul_smul]
      have hL : 0 < vlen (p2 - p1) := lt_of_le_of_ne (vlen_nonneg _) (Ne.symm hz)
      have e2 : (p2 - p1) + (2 * ((r1 + r2 - vlen (p2 - p1)) * (1 / 2)) *
            (vlen (p2 - p1))⁻¹) • (p2 - p1)
          = (1 + 2 * ((r1 + r2 - vlen (p2 - p1)) * (1 / 2)) *
            (vlen (p2 - p1))⁻¹) • (p2 - p1) := by
        module
      rw [e2, vlen_smul]
      have hfac : 1 + 2 * ((r1 + r2 - vlen (p2 - p1)) * (1 / 2)) * (vlen (p2 - p1))⁻¹
          = (r1 + r2) / vlen (p2 - p1) := by
        field_simp
      rw [hfac, abs_of_pos (div_pos hsum4 hL), div_mul_cancel₀ _ (ne_of_gt hL)]
  refine ⟨hlen, by rw [hlen]; linarith, ?_, hClen, by rw [hClen]; exact lt_irrefl _, ?_⟩
  · rw [hres]
    dsimp only
    module
  · rw [hC]
    dsimp only
    module

/-- Witness for the amended C7 theorem: characters of radius 20 at
(0, 0) and (30, 0) overlap at distance 30 and end the dueling_game.py
pass at distance 40.1, while two coincident radius-20 circles at the
origin end the claude_4 pass at exactly distance 40. -/
theorem c7_amended_pair_separation_witness :
    (0 : ℝ) < vlen ((⟨(30, 0), 20, .character, none⟩ : Duel.Coll).pos -
      (⟨(0, 0), 20, .character, none⟩ : Duel.Coll).pos) ∧
    vlen ((⟨(30, 0), 20, .character, none⟩ : Duel.Coll).pos -
      (⟨(0, 0), 20, .character, none⟩ : Duel.Coll).pos) < 20 + 20 ∧
    vlen ((((0 : ℝ), (0 : ℝ)) : ℝ × ℝ) - (((0 : ℝ), (0 : ℝ)) : ℝ × ℝ)) < 20 + 20 ∧
    vlen ((Duel.resolvePairPos ⟨(0, 0), 20, .character, none⟩
        ⟨(30, 0), 20, .character, none⟩).2 -
      (Duel.resolvePairPos ⟨(0, 0), 20, .character, none⟩
        ⟨(30, 0), 20, .character, none⟩).1) = 20 + 20 + 1 / 10 ∧
    vlen ((Claude4.handleCollisionsPair ((0 : ℝ), (0 : ℝ)) ((0 : ℝ), (0 : ℝ)) 20 20).2 -
      (Claude4.handleCollisionsPair ((0 : ℝ), (0 : ℝ)) ((0 : ℝ), (0 : ℝ)) 20 20).1)
        = 20 + 20 := by
  have h30 : vlen ((⟨(30, 0), 20, .character, none⟩ : Duel.Coll).pos -
      (⟨(0, 0), 20, .character, none⟩ : Duel.Coll).pos) = 30 := by
    show vlen (((30 : ℝ), (0 : ℝ)) - ((0 : ℝ), (0 : ℝ))) = 30
    unfold vlen
    rw [Prod.mk_sub_mk]
    norm_num
    rw [show (900 : ℝ) = 30 ^ 2 by norm_num]
    exact Real.sqrt_sq (by norm_num)
  have hd : (0 : ℝ) < vlen ((⟨(30, 0), 20, .character, none⟩ : Duel.Coll).pos -
      (⟨(0, 0), 20, .character, none⟩ : Duel.Coll).pos) := by
    rw [h30]; norm_num
  have hov : vlen ((⟨(30, 0), 20, .character, none⟩ : Duel.Coll).pos -
      (⟨(0, 0), 20, .character, none⟩ : Duel.Coll).pos) < 20 + 20 := by
    rw [h30]; norm_num
  have hov4 : vlen ((((0 : ℝ), (0 : ℝ)) : ℝ × ℝ) - (((0 : ℝ), (0 : ℝ)) : ℝ × ℝ))
      < 20 + 20 := by
    rw [sub_self, show vlen (0 : ℝ × ℝ) = 0 from vlen_eq_zero.mpr rfl]
    norm_num
  have h := c7_amended_pair_separation ⟨(0, 0), 20, .character, none⟩
    ⟨(30, 0), 20, .character, none⟩ rfl rfl hd hov ((0 : ℝ), (0 : ℝ))
    ((0 : ℝ), (0 : ℝ)) 20 20 hov4
  exact ⟨hd, hov, hov4, h.1, h.2.2.2.1⟩

end ClaimC7

section ClaimC10

/-- C10 confirmed: the dueling_game.py resolver skips a pair whose
centers coincide - no positional correction (and hence no knockback) is
applied, so fully coincident bodies are never separated - and whenever
the pass does change a pair's positions its center distance was
strictly positive, so the direction normalization inside the push
branch is only ever evaluated at strictly positive distance and can
never hit the zero-vector case. -/
theorem c10_coincident_centers_skipped (a b : Duel.Coll) (h : a.pos = b.pos) :
    Duel.resolvePairPos a b = (a.pos, b.pos) ∧
    ∀ a' b' : Duel.Coll, 0 < vlen (b'.pos - a'.pos) ∨
      Duel.resolvePairPos a' b' = (a'.pos, b'.pos) := by
  have hskip : ∀ x y : Duel.Coll, vlen (y.pos - x.pos) = 0 →
      Duel.resolvePairPos x y = (x.pos, y.pos) := by
    intro x y hz
    unfold Duel.resolvePairPos
    rw [if_pos hz]
  constructor
  · apply hskip
    rw [h, sub_self]
    exact vlen_eq_zero.mpr rfl
  · intro a' b'
    rcases lt_or_eq_of_le (vlen_nonneg (b'.pos - a'.pos)) with hlt | heq
    · exact Or.inl hlt
    · exact Or.inr (hskip _ _ heq.symm)

/-- Witness for the C10 theorem: a rock and a character whose centers
both sit at (5, 5) are left exactly where they are. -/
theorem c10_coincident_centers_skipped_witness :
    (⟨(5, 5), 10, Duel.CKind.rock, none⟩ : Duel.Coll).pos
      = (⟨(5, 5), 12, Duel.CKind.character, none⟩ : Duel.Coll).pos ∧
    Duel.resolvePairPos ⟨(5, 5), 10, .rock, none⟩ ⟨(5, 5), 12, .character, none⟩
      = ((5, 5), (5, 5)) :=
  ⟨rfl, (c10_coincident_centers_skipped ⟨(5, 5), 10, .rock, none⟩
      ⟨(5, 5), 12, .character, none⟩ rfl).1⟩

end ClaimC10

section ClaimC8

/-- C8 counterexample: with the target player still present in the
collidables list but dead, gamma's Enemy.update re-acquires the dead
player as its target (the isinstance search does not test is_dead) and
keeps running the AI state machine: an APPROACHING enemy 300 pixels
from the dead player (attack radius 88, state timer still positive)
ends the tick still APPROACHING, not forced to IDLE. -/
theorem c8_dead_target_keeps_running_counterexample :
    (Gamma.enemyUpdateAI
        ⟨(0, 0), (0, 0), 0, 0, .approachingSt, .standard, 1, 1, 400, 88, 200, 1, 80, 100,
          none, ⟨.sword, false, false, 12, 102, 12, 0, 0, -60, 120, false, (0, 0)⟩,
          ⟨.sword, false, false, 12, 102, 12, 0, 0, -60, 120, false, (0, 0)⟩⟩
        none (some ⟨(300, 0), true⟩) [] (1 / 60)
        ⟨1, 200, .idleSt, .idleSt, 1, 1, true, 2, .idleSt, 1, 0, 50, .idleSt⟩).aiState
      = Gamma.AISt.approachingSt ∧
    Gamma.AISt.approachingSt ≠ Gamma.AISt.idleSt := by
  refine ⟨?_, by decide⟩
  have h300 : vlen (((300 : ℝ), (0 : ℝ)) - ((0 : ℝ), (0 : ℝ))) = 300 := by
    rw [Prod.mk_sub_mk]
    unfold vlen
    norm_num
    rw [show (90000 : ℝ) = 300 ^ 2 by norm_num]
    exact Real.sqrt_sq (by norm_num)
  unfold Gamma.enemyUpdateAI
  dsimp only [Gamma.acquireTarget]
  unfold Gamma.runAI
  dsimp only [Gamma.avoidData, List.foldl]
  rw [if_neg (by norm_num)]
  rw [if_neg (by decide)]
  dsimp only
  unfold Gamma.runApproaching
  dsimp only
  rw [if_neg (by rw [h300]; norm_num)]
  rw [if_neg (by norm_num)]

/-- C8 amended: when the enemy's stored target is missing or dead AND
no Player instance is present in the collidables list, gamma's
Enemy.update sets the velocity to exactly zero and forces the IDLE
state within that same tick, whatever the prior state, never touching
the absent target (the embedded update is a total function of its
inputs); when a Player instance is present but dead, however, it is
re-acquired as the target and the state machine keeps running (see the
counterexample), and the grok variant never forces IDLE at all, substituting
a default screen-center target position instead. -/
theorem c8_amended_missing_target_idles (e : Gamma.Enemy) (cur : Option Gamma.Target)
    (hz : List Gamma.Hazard) (dt : ℝ) (o : Gamma.Oracle)
    (hcur : cur = none ∨ ∃ t, cur = some t ∧ t.isDead = true) :
    (Gamma.enemyUpdateAI e cur none hz dt o).vel = 0 ∧
    (Gamma.enemyUpdateAI e cur none hz dt o).aiState = Gamma.AISt.idleSt := by
  have hacq : Gamma.acquireTarget cur none = none := by
    rcases hcur with h | ⟨t, ht, hd⟩
    · rw [h]
      rfl
    · rw [ht]
      simp [Gamma.acquireTarget, hd]
  unfold Gamma.enemyUpdateAI
  rw [hacq]
  unfold Gamma.changeState
  dsimp only
  split_ifs with hs <;> simp_all

/-- Witness for the amended C8 theorem: a CIRCLING enemy whose stored
target is empty and with no player in the collidables list ends the
tick IDLE with zero velocity. -/
theorem c8_amended_missing_target_idles_witness :
    ((none : Option Gamma.Target) = none ∨
      ∃ t, (none : Option Gamma.Target) = some t ∧ t.isDead = true) ∧
    (Gamma.enemyUpdateAI
        ⟨(0, 0), (1, 1), 0, 0, .circlingSt, .standard, 1, 1, 400, 88, 200, 1, 80, 100,
          none, ⟨.sword, false, false, 12, 102, 12, 0, 0, -60, 120, false, (0, 0)⟩,
          ⟨.sword, false, false, 12, 102, 12, 0, 0, -60, 120, false, (0, 0)⟩⟩
        none none [] (1 / 60)
        ⟨1, 200, .idleSt, .idleSt, 1, 1, true, 2, .idleSt, 1, 0, 50, .idleSt⟩).vel = 0 ∧
    (Gamma.enemyUpdateAI
        ⟨(0, 0), (1, 1), 0, 0, .circlingSt, .standard, 1, 1, 400, 88, 200, 1, 80, 100,
          none, ⟨.sword, false, false, 12, 102, 12, 0, 0, -60, 120, false, (0, 0)⟩,
          ⟨.sword, false, false, 12, 102, 12, 0, 0, -60, 120, false, (0, 0)⟩⟩
        none none [] (1 / 60)
        ⟨1, 200, .idleSt, .idleSt, 1, 1, true, 2, .idleSt, 1, 0, 50, .idleSt⟩).aiState
      = Gamma.AISt.idleSt :=
  ⟨Or.inl rfl,
   (c8_amended_missing_target_idles _ none [] (1 / 60) _ (Or.inl rfl)).1,
   (c8_amended_missing_target_idles _ none [] (1 / 60) _ (Or.inl rfl)).2⟩

end ClaimC8
